import Mathlib

/-!
Verification of the raksha360 backend (FastAPI + SQLAlchemy) ticket /
auth / prescription core, shallowly embedded in Lean 4.

Conventions of the embedding:
* Database tables are lists of rows; a handler takes the tables it touches
  and returns its HTTP outcome together with the (possibly updated) tables.
  A raised `HTTPException` (or an uncaught Python exception, surfaced by the
  framework as HTTP 500) is an `Except.error` carrying status and detail,
  and leaves every table unchanged, because the session is never committed
  on those paths.
* JSON column values are modelled by the `Json` inductive; Python dict
  objects keep their insertion order as an association list with distinct
  keys, and `dict.get` / `d[k] = v` are `lookupKey` / `setKey`.
* `datetime.utcnow()` is a `now : Nat` parameter supplied per request;
  `isoformat()` is abstracted to its decimal rendering `isoTime`.
* Password hashing / verification (passlib bcrypt) is an external
  collaborator; login handlers are parametrised over
  `verify : plain → hash → Bool` exactly as they call `verify_password`.
* Token signing/decoding (jose JWT) is external; handlers receive the
  already-decoded claim payload (`TokenPayload`).
-/

namespace Raksha360

/-- An HTTP error outcome: status code plus detail string (FastAPI
`HTTPException`, or a generic 500 page for an uncaught exception). -/
structure HttpError where
  status : Nat
  detail : String
deriving DecidableEq, Repr

/-- JSON values, as stored in the SQLAlchemy `JSON` columns. Objects are
association lists in insertion order with pairwise-distinct keys. -/
inductive Json where
  | null : Json
  | bool (b : Bool) : Json
  | num (n : Int) : Json
  | str (s : String) : Json
  | arr (elems : List Json) : Json
  | obj (fields : List (String × Json)) : Json

/-- Python truthiness of a JSON value (`if payload:` / `t.payload or` use
this): `None`, `False`, `0`, `""`, `[]` and the empty dict are falsy. -/
def jsonTruthy : Json → Bool
  | .null => false
  | .bool b => b
  | .num n => n != 0
  | .str s => s != ""
  | .arr l => !l.isEmpty
  | .obj l => !l.isEmpty

/-- `d.get(k)` on a Python dict. -/
def lookupKey (k : String) : List (String × Json) → Option Json
  | [] => none
  | (k2, v) :: rest => if k2 == k then some v else lookupKey k rest

/-- `d[k] = v` on a Python dict: replace the value in place if the key is
present (keys are distinct, so replacing the first occurrence suffices),
otherwise append the new key at the end. -/
def setKey (k : String) (v : Json) : List (String × Json) → List (String × Json)
  | [] => [(k, v)]
  | (k2, v2) :: rest =>
    if k2 == k then (k2, v) :: rest else (k2, v2) :: setKey k v rest

/-- The abstraction of `datetime.utcnow().isoformat()` at abstract clock
value `n`. -/
def isoTime (n : Nat) : String := toString n

/-- Python truthiness of an optional string (`if status:` / `if upd.note:`). -/
def optStrTruthy : Option String → Bool
  | none => false
  | some s => s != ""

/-- Python truthiness of an optional integer (`if action.get("assign_to"):`,
`if r.hospital_id:`): both a missing value and `0` are falsy. -/
def optNatTruthy : Option Nat → Bool
  | none => false
  | some n => n != 0

-- ---------------------------------------------------------------------
-- Data model (src/app/models.py), restricted to the fields the handlers
-- read or write.  `updated_at` (a DB-side `onupdate` timestamp never read
-- by any handler) is omitted.
-- ---------------------------------------------------------------------

/-- Row of the `patients` table. -/
structure Patient where
  id : Nat
  name : String
  email : String
  password_hash : String
deriving DecidableEq, Repr

/-- Row of the `doctors` table. -/
structure Doctor where
  id : Nat
  name : String
  email : String
  password_hash : String
deriving DecidableEq, Repr

/-- Row of the `hospitals` table. -/
structure Hospital where
  id : Nat
  name : String
  email : String
  password_hash : String
  status : String
deriving DecidableEq, Repr

/-- Row of the `admin_users` table. -/
structure AdminUser where
  id : Nat
  name : String
  email : String
  password_hash : String
deriving DecidableEq, Repr

/-- Row of the central `tickets` table (src/app/models.py `Ticket`). -/
structure Ticket where
  id : Nat
  hospital_id : Option Nat
  type : String
  details : Option String
  payload : Option Json
  status : String
  assigned_admin : Option Nat
  created_at : Nat
  closed_at : Option Nat
  closed_by_admin : Option Nat
  closed_by_hospital : Option Nat
  last_updated_by_admin : Option Nat
  last_updated_by_hospital : Option Nat

/-- Row of the `prescriptions` table.  `llm_version` keeps the raw JSON
value the handler assigns to the column. -/
structure Prescription where
  id : Nat
  patient_id : Nat
  doctor_id : Nat
  raw_medicines : List Json
  diagnosis : Option String
  notes : Option String
  llm_output : Option Json
  llm_version : Option Json
  llm_status : String
  created_at : Nat

-- ---------------------------------------------------------------------
-- Request schemas (src/app/schemas.py) and auth material
-- ---------------------------------------------------------------------

/-- The four role strings that `get_actor_from_token` accepts. -/
inductive Role where
  | patient
  | doctor
  | hospital
  | admin
deriving DecidableEq, Repr

/-- The role string carried in a token and compared by
`get_actor_from_token` (src/app/routes.py lines 80-105). -/
def roleStr : Role → String
  | .patient => "patient"
  | .doctor => "doctor"
  | .hospital => "hospital"
  | .admin => "admin"

/-- The resolved actor handed to the ticket handlers by
`get_actor_from_token`: its role together with the id of the matching row. -/
structure Actor where
  role : Role
  id : Nat
deriving DecidableEq, Repr

/-- The claims of a decoded token that the kind-specific resolvers
(`get_current_patient` / `get_current_doctor`) look at: the subject email
and the role string.  `decode_token_payload` only checks the signature;
the resolvers read `payload.get("sub")` and never consult the role. -/
structure TokenPayload where
  sub : String
  role : String
deriving DecidableEq, Repr

/-- The claim set put into a freshly issued login token by
`create_access_token` at the four login call sites.  Patient, doctor and
admin tokens carry an `id` claim; hospital tokens carry `hospital_id`. -/
structure IssuedToken where
  sub : String
  role : String
  id : Option Nat
  hospital_id : Option Nat
deriving DecidableEq, Repr

/-- Schema `TicketCreate` (src/app/schemas.py lines 76-87).  Note: it
declares `type`, `count`, `description`, `hospital_id`, `assigned_admin` -
there is no `details` and no `payload` field. -/
structure TicketCreate where
  type : String
  count : Option Int
  description : Option String
  hospital_id : Option Nat
  assigned_admin : Option Nat
deriving DecidableEq, Repr

/-- Schema `TicketUpdate` (src/app/schemas.py lines 89-99).  A supplied
`payload` is a JSON object (`Dict[str, Any]`). -/
structure TicketUpdate where
  details : Option String
  payload : Option (List (String × Json))
  count : Option Int
  description : Option String
  status : Option String
  assigned_admin : Option Nat
  note : Option String

/-- The `action` dict posted to `/admin/requests/.../action`; the handler
reads the keys `action` and `assign_to`. -/
structure ActionReq where
  action : Option String
  assign_to : Option Nat
deriving DecidableEq, Repr

/-- Schema `Medicine` (src/app/schemas.py lines 7-11). -/
structure Medicine where
  name : String
  dosage : Option String
  frequency : Option String
  duration : Option String
deriving DecidableEq, Repr

/-- Schema `PrescriptionCreate` (src/app/schemas.py lines 21-25). -/
structure PrescriptionCreate where
  patient_id : Nat
  diagnosis : Option String
  notes : Option String
  raw_medicines : List Medicine
deriving DecidableEq, Repr

/-- `medicine.dict()`: the JSON object a `Medicine` schema value is
serialised to before being stored in the `raw_medicines` JSON column. -/
def Medicine.toJson (m : Medicine) : Json :=
  Json.obj [("name", .str m.name),
            ("dosage", match m.dosage with | some s => .str s | none => .null),
            ("frequency", match m.frequency with | some s => .str s | none => .null),
            ("duration", match m.duration with | some s => .str s | none => .null)]

-- ---------------------------------------------------------------------
-- Auth helpers (src/app/routes.py lines 47-61) and logins
-- ---------------------------------------------------------------------

/-- `get_current_patient` (src/app/routes.py lines 47-53): decodes the
token, reads the `sub` claim, and looks the patient up by email.  The
`role` claim is never examined. -/
def get_current_patient (payload : TokenPayload) (db : List Patient) :
    Except HttpError Patient :=
  match db.find? (fun p => p.email == payload.sub) with
  | some p => .ok p
  | none => .error ⟨401, "Patient not found"⟩

/-- `get_current_doctor` (src/app/routes.py lines 55-61): same shape as
the patient resolver, over the doctors table. -/
def get_current_doctor (payload : TokenPayload) (db : List Doctor) :
    Except HttpError Doctor :=
  match db.find? (fun d => d.email == payload.sub) with
  | some d => .ok d
  | none => .error ⟨401, "Doctor not found"⟩

/-- `patient_login` (src/app/routes.py lines 261-268), parametrised over
the external bcrypt check `verify plain hash`. -/
def patient_login (verify : String → String → Bool) (email password : String)
    (db : List Patient) : Except HttpError IssuedToken :=
  match db.find? (fun p => p.email == email) with
  | none => .error ⟨401, "Invalid credentials"⟩
  | some p =>
    if verify password p.password_hash then
      .ok ⟨p.email, "patient", some p.id, none⟩
    else
      .error ⟨401, "Invalid credentials"⟩

/-- `doctor_login` (src/app/routes.py lines 289-295). -/
def doctor_login (verify : String → String → Bool) (email password : String)
    (db : List Doctor) : Except HttpError IssuedToken :=
  match db.find? (fun d => d.email == email) with
  | none => .error ⟨401, "Invalid credentials"⟩
  | some d =>
    if verify password d.password_hash then
      .ok ⟨d.email, "doctor", some d.id, none⟩
    else
      .error ⟨401, "Invalid credentials"⟩

/-- `hospital_login` (src/app/routes.py lines 521-527).  Note the failure
status is 400, not 401. -/
def hospital_login (verify : String → String → Bool) (username password : String)
    (db : List Hospital) : Except HttpError IssuedToken :=
  match db.find? (fun h => h.email == username) with
  | none => .error ⟨400, "Invalid credentials"⟩
  | some h =>
    if verify password h.password_hash then
      .ok ⟨h.email, "hospital", none, some h.id⟩
    else
      .error ⟨400, "Invalid credentials"⟩

/-- `admin_login` (src/app/routes.py lines 561-567). -/
def admin_login (verify : String → String → Bool) (email password : String)
    (db : List AdminUser) : Except HttpError IssuedToken :=
  match db.find? (fun a => a.email == email) with
  | none => .error ⟨401, "Invalid admin credentials"⟩
  | some a =>
    if verify password a.password_hash then
      .ok ⟨a.email, "admin", some a.id, none⟩
    else
      .error ⟨401, "Invalid admin credentials"⟩

-- ---------------------------------------------------------------------
-- Ticket handlers (src/app/routes.py lines 108-240, 529-558, 585-622)
-- ---------------------------------------------------------------------

/-- `db.query(Ticket).filter(Ticket.id == tid).first()`. -/
def findTicket (tid : Nat) (db : List Ticket) : Option Ticket :=
  db.find? (fun t => t.id == tid)

/-- Descending creation order: `order_by(Ticket.created_at.desc())`. -/
def createdDesc (a b : Ticket) : Prop := b.created_at ≤ a.created_at

instance : DecidableRel createdDesc := fun _ _ => Nat.decLe _ _

instance : IsTotal Ticket createdDesc := ⟨fun a b => Nat.le_total b.created_at a.created_at⟩

instance : IsTrans Ticket createdDesc := ⟨fun _ _ _ hab hbc => Nat.le_trans hbc hab⟩

/-- `order_by(Ticket.created_at.desc()).all()`: the filtered rows, newest
creation timestamp first. -/
def orderByCreatedDesc (l : List Ticket) : List Ticket := l.insertionSort createdDesc

/-- The optional `status` query filter: `if status: q = q.filter(...)`
skips both a missing and an empty status string (Python truthiness). -/
def applyStatusFilter (statusQ : Option String) (l : List Ticket) : List Ticket :=
  match statusQ with
  | some s => if s != "" then l.filter (fun t => t.status == s) else l
  | none => l

/-- The admin branch's optional `hospital_id` query filter
(`if hospital_id is not None`, an explicit None check). -/
def adminHospitalFilter (hospitalQ : Option Nat) (db : List Ticket) : List Ticket :=
  match hospitalQ with
  | some h => db.filter (fun t => t.hospital_id == some h)
  | none => db

/-- `get_tickets` (src/app/routes.py lines 108-133): a hospital actor is
filtered to its own tickets (the `hospital_id` query parameter is never
consulted on that branch), an admin actor gets optional `hospital_id` and
`status` filters, and every other role gets 403. -/
def get_tickets (statusQ : Option String) (hospitalQ : Option Nat) (actor : Actor)
    (db : List Ticket) : Except HttpError (List Ticket) :=
  match actor.role with
  | .hospital =>
    .ok (orderByCreatedDesc
      (applyStatusFilter statusQ (db.filter (fun t => t.hospital_id == some actor.id))))
  | .admin =>
    .ok (orderByCreatedDesc (applyStatusFilter statusQ (adminHospitalFilter hospitalQ db)))
  | _ => .error ⟨403, "Not authorized to list tickets"⟩

/-- `list_hospital_requests` (src/app/routes.py lines 548-550): the
legacy hospital-scoped listing, newest first. -/
def list_hospital_requests (hospital : Hospital) (db : List Ticket) : List Ticket :=
  orderByCreatedDesc (db.filter (fun t => t.hospital_id == some hospital.id))

/-- The HTTP outcome of an uncaught Python exception inside a handler:
the framework answers 500 and the session is never committed. -/
def internalServerError : HttpError := ⟨500, "Internal Server Error"⟩

/-- `create_ticket` (src/app/routes.py lines 135-172).  The handler
dispatches on the actor role; the hospital branch and the admin branch
both construct a `models.Ticket` from `ticket_in.details` and
`ticket_in.payload` - but schema `TicketCreate` (src/app/schemas.py lines
76-87) declares neither field, so pydantic raises `AttributeError` on the
first of those reads and the framework surfaces HTTP 500 before any row
is added.  Remaining roles reach the explicit 403 branch. -/
def create_ticket (actor : Actor) (_ticket_in : TicketCreate) (db : List Ticket) :
    Except HttpError Ticket × List Ticket :=
  match actor.role with
  | .hospital => (.error internalServerError, db)
  | .admin => (.error internalServerError, db)
  | _ => (.error ⟨403, "Only hospital or admin can create tickets"⟩, db)

/-- `create_hospital_request` (src/app/routes.py lines 530-546), the
legacy alias: it reads `payload.details` and `payload.payload` from the
same `TicketCreate` schema, so it fails with the same `AttributeError`
(HTTP 500) before any row is added. -/
def create_hospital_request (_hospital : Hospital) (_payload : TicketCreate)
    (db : List Ticket) : Except HttpError Nat × List Ticket :=
  (.error internalServerError, db)

/-- Step of `update_ticket` for `upd.details` (routes.py lines 195-197);
the second component is the running `changed` flag. -/
def stepDetails (upd : TicketUpdate) (p : Ticket × Bool) : Ticket × Bool :=
  match upd.details with
  | some d => ({ p.1 with details := some d }, true)
  | none => p

/-- Step of `update_ticket` for `upd.payload` (routes.py lines 198-201):
replacement, not merge. -/
def stepPayload (upd : TicketUpdate) (p : Ticket × Bool) : Ticket × Bool :=
  match upd.payload with
  | some kvs => ({ p.1 with payload := some (Json.obj kvs) }, true)
  | none => p

/-- Step of `update_ticket` for `upd.assigned_admin` (routes.py lines
202-204). -/
def stepAssigned (upd : TicketUpdate) (p : Ticket × Bool) : Ticket × Bool :=
  match upd.assigned_admin with
  | some a => ({ p.1 with assigned_admin := some a }, true)
  | none => p

/-- Step of `update_ticket` for `upd.status` (routes.py lines 205-215):
any supplied status string is written; a transition into `closed` or
`resolved` stamps `closed_at` and the closed-by column matching the actor
role (neither column for a doctor or patient actor). -/
def stepStatus (actor : Actor) (now : Nat) (upd : TicketUpdate) (p : Ticket × Bool) :
    Ticket × Bool :=
  match upd.status with
  | none => p
  | some s =>
    let t1 := { p.1 with status := s }
    if s == "closed" || s == "resolved" then
      let t2 := { t1 with closed_at := some now }
      match actor.role with
      | .admin => ({ t2 with closed_by_admin := some actor.id }, true)
      | .hospital => ({ t2 with closed_by_hospital := some actor.id }, true)
      | _ => (t2, true)
    else
      (t1, true)

/-- Step of `update_ticket` for the last-updated stamp (routes.py lines
217-221); it does not touch the `changed` flag. -/
def stepLastUpdated (actor : Actor) (p : Ticket × Bool) : Ticket × Bool :=
  match actor.role with
  | .admin => ({ p.1 with last_updated_by_admin := some actor.id }, p.2)
  | .hospital => ({ p.1 with last_updated_by_hospital := some actor.id }, p.2)
  | _ => p

/-- `payload = t.payload or {}` (routes.py line 225): a missing or falsy
payload is replaced by the empty dict. -/
def effBase : Option Json → Json
  | none => Json.obj []
  | some p => if jsonTruthy p then p else Json.obj []

/-- Lines 226-228: `payload.get("notes")` when the payload is a dict,
coerced to `[]` whenever the result is not a list. -/
def notesOf : Json → List Json
  | .obj kvs =>
    match lookupKey "notes" kvs with
    | some (.arr l) => l
    | _ => []
  | _ => []

/-- The note entry dict appended at routes.py line 229. -/
def mkNoteEntry (role : Role) (id : Nat) (note : String) (now : Nat) : Json :=
  Json.obj [("by", .str (roleStr role)), ("by_id", .num id),
            ("note", .str note), ("at", .str (isoTime now))]

/-- Lines 230-232: re-dict the base payload and write the `notes` key. -/
def writeNotes (base : Json) (notes : List Json) : Json :=
  match base with
  | .obj kvs => Json.obj (setKey "notes" (Json.arr notes) kvs)
  | _ => Json.obj [("notes", Json.arr notes)]

/-- Step of `update_ticket` for `upd.note` (routes.py lines 223-233),
running on the ticket as already modified by the earlier steps: truthy
notes are appended to the notes list found in the current payload. -/
def stepNote (actor : Actor) (now : Nat) (upd : TicketUpdate) (p : Ticket × Bool) :
    Ticket × Bool :=
  match upd.note with
  | some s =>
    if s != "" then
      let base := effBase p.1.payload
      let notes := notesOf base ++ [mkNoteEntry actor.role actor.id s now]
      ({ p.1 with payload := some (writeNotes base notes) }, true)
    else
      p
  | none => p

/-- The full field-update pipeline of `update_ticket` (routes.py lines
193-233), in source order, starting from `changed = False`. -/
def updatePipeline (actor : Actor) (now : Nat) (upd : TicketUpdate) (t0 : Ticket) :
    Ticket × Bool :=
  stepNote actor now upd
    (stepLastUpdated actor
      (stepStatus actor now upd
        (stepAssigned upd
          (stepPayload upd
            (stepDetails upd (t0, false))))))

/-- `update_ticket` (src/app/routes.py lines 174-240): 404 when the
ticket id does not exist; 403 when a hospital actor does not own the
ticket (both before any write); otherwise the pipeline result is
returned, and committed to the table only when the `changed` flag is set. -/
def update_ticket (actor : Actor) (ticket_id : Nat) (upd : TicketUpdate) (now : Nat)
    (db : List Ticket) : Except HttpError Ticket × List Ticket :=
  match findTicket ticket_id db with
  | none => (.error ⟨404, "Ticket not found"⟩, db)
  | some t0 =>
    if actor.role == .hospital && t0.hospital_id != some actor.id then
      (.error ⟨403, "Not authorized to modify this ticket"⟩, db)
    else
      let p := updatePipeline actor now upd t0
      (.ok p.1,
       if p.2 then db.map (fun u => if u.id == t0.id then p.1 else u) else db)

-- ---------------------------------------------------------------------
-- Admin action endpoint (src/app/routes.py lines 585-622)
-- ---------------------------------------------------------------------

/-- The if/elif verb dispatch of `admin_take_action` (routes.py lines
596-616), acting on the found ticket `r`; returns the updated ticket and
hospitals table, or the 400 `Unknown action` error.  Note `"assign"`
additionally requires a truthy `assign_to` on the same condition, so an
`assign` without one falls through the whole chain into the 400 branch,
and `approve_signup` checks `if r.hospital_id:` by Python truthiness. -/
def actionDispatch (admin_id : Nat) (action : ActionReq) (now : Nat) (r : Ticket)
    (hdb : List Hospital) : Except HttpError (Ticket × List Hospital) :=
  if action.action == some "assign" && optNatTruthy action.assign_to then
    .ok ({ r with assigned_admin := action.assign_to, status := "in_progress" }, hdb)
  else if action.action == some "start" then
    .ok ({ r with status := "in_progress" }, hdb)
  else if action.action == some "resolve" then
    .ok ({ r with status := "resolved", closed_at := some now,
                  closed_by_admin := some admin_id }, hdb)
  else if action.action == some "reject" then
    .ok ({ r with status := "rejected" }, hdb)
  else if action.action == some "approve_signup" then
    match r.hospital_id with
    | some h =>
      if h != 0 then
        match hdb.find? (fun x => x.id == h) with
        | some _ =>
          .ok ({ r with status := "resolved" },
               hdb.map (fun x => if x.id == h then { x with status := "active" } else x))
        | none => .ok (r, hdb)
      else
        .ok (r, hdb)
    | none => .ok (r, hdb)
  else
    .error ⟨400, "Unknown action"⟩

/-- `admin_take_action` (src/app/routes.py lines 585-622): 404 when the
ticket does not exist; otherwise the verb dispatch runs, an unknown verb
aborts with 400 before anything is committed, and a recognized verb
always stamps `last_updated_by_admin` with the caller and commits. -/
def admin_take_action (admin_id : Nat) (request_id : Nat) (action : ActionReq)
    (now : Nat) (tdb : List Ticket) (hdb : List Hospital) :
    Except HttpError Ticket × List Ticket × List Hospital :=
  match findTicket request_id tdb with
  | none => (.error ⟨404, "Not found"⟩, tdb, hdb)
  | some r =>
    match actionDispatch admin_id action now r hdb with
    | .error e => (.error e, tdb, hdb)
    | .ok (r1, hdb1) =>
      let r2 := { r1 with last_updated_by_admin := some admin_id }
      (.ok r2, tdb.map (fun u => if u.id == r.id then r2 else u), hdb1)

-- ---------------------------------------------------------------------
-- Prescription creation (src/app/routes.py lines 340-369) and the
-- enrichment stub (src/app/langchain_agent.py)
-- ---------------------------------------------------------------------

/-- The enrichment collaborator as the handler sees it: called with the
patient name, patient id, diagnosis text and raw medicines JSON, it
either returns a JSON payload or raises (an `Except.error` carrying the
exception message). -/
def AgentFn : Type :=
  String → Nat → String → List Json → Except String Json

/-- `call_langchain_agent` (src/app/langchain_agent.py lines 4-29): the
deterministic stub.  Each medicine entry contributes its `name` (the
`qty` key is absent from `Medicine.dict()` serialisations, so the
quantity suffix is empty); a non-dict entry contributes its string form,
abstracted here by rendering non-string name lookups as `"?"`. -/
def stubMedSummary : Json → String
  | .obj kvs =>
    match lookupKey "name" kvs with
    | some (.str s) => s
    | _ => "?"
  | _ => "?"

/-- The stub agent never raises: it returns a dict carrying the
`_meta_model` tag, a patient echo, the diagnosis and the summary. -/
def call_langchain_agent : AgentFn := fun patient_name patient_id diagnosis meds =>
  .ok (Json.obj
    [("_meta_model", .str "langchain-stub"),
     ("patient", .obj [("id", .num patient_id), ("name", .str patient_name)]),
     ("diagnosis", .str diagnosis),
     ("medicines", .arr ((meds.map stubMedSummary).map Json.str))])

/-- Line 355: the patient name used in the agent call, falling back to
an id marker when the referenced patient row does not exist. -/
def patientNameFor (patients : List Patient) (pid : Nat) : String :=
  match patients.find? (fun p => p.id == pid) with
  | some p => p.name
  | none => "id:" ++ toString pid

/-- Line 360: `llm_result.get("_meta_model", "langchain")` when the
result is a dict, `"langchain"` otherwise. -/
def metaModelOf : Json → Json
  | .obj kvs => (lookupKey "_meta_model" kvs).getD (.str "langchain")
  | _ => .str "langchain"

/-- Lines 362-364: the error payload stored when the collaborator raises.
`traceback.format_exc()` is abstracted to the exception message. -/
def llmErrorPayload (e : String) : Json :=
  Json.obj [("error", .str e), ("traceback", .str e)]

/-- `create_prescription` (src/app/routes.py lines 340-369): the row is
inserted with `llm_status = "pending"` and committed; the collaborator is
then invoked inside try/except and the same row is re-committed with
either the success fields or the error payload.  The handler itself never
fails and never removes the row. -/
def create_prescription (agent : AgentFn) (pres_in : PrescriptionCreate)
    (doctor_id now newId : Nat) (patients : List Patient)
    (db : List Prescription) : Prescription × List Prescription :=
  let pres0 : Prescription :=
    { id := newId
      patient_id := pres_in.patient_id
      doctor_id := doctor_id
      raw_medicines := pres_in.raw_medicines.map Medicine.toJson
      diagnosis := pres_in.diagnosis
      notes := pres_in.notes
      llm_output := none
      llm_version := none
      llm_status := "pending"
      created_at := now }
  let patient_name := patientNameFor patients pres_in.patient_id
  let pres1 :=
    match agent patient_name pres_in.patient_id (pres_in.diagnosis.getD "")
        pres0.raw_medicines with
    | .ok r =>
      { pres0 with llm_output := some r, llm_version := some (metaModelOf r),
                   llm_status := "done" }
    | .error e =>
      { pres0 with llm_output := some (llmErrorPayload e), llm_status := "error" }
  (pres1, db ++ [pres1])

-- ---------------------------------------------------------------------
-- Theorems
-- ---------------------------------------------------------------------

/-- C1: ticket creation never reaches the hospital-id forcing logic: for a
Hospital actor (even one supplying a foreign `hospital_id` in the body)
and for an AdminUser actor the handler dies with HTTP 500 (the
`AttributeError` on the missing `TicketCreate.details` field) and creates
no ticket, while any other actor kind gets the documented 403; the legacy
alias `create_hospital_request` fails the same way.  This evaluates the
code at the failing inputs of the code-bug record. -/
theorem c1_create_ticket_crashes_before_forcing :
    create_ticket ⟨.hospital, 1⟩ ⟨"staff", none, none, some 99, none⟩ []
      = (.error internalServerError, [])
    ∧ create_ticket ⟨.admin, 2⟩ ⟨"staff", none, none, some 3, none⟩ []
      = (.error internalServerError, [])
    ∧ create_ticket ⟨.doctor, 3⟩ ⟨"staff", none, none, none, none⟩ []
      = (.error ⟨403, "Only hospital or admin can create tickets"⟩, [])
    ∧ create_ticket ⟨.patient, 4⟩ ⟨"staff", none, none, none, none⟩ []
      = (.error ⟨403, "Only hospital or admin can create tickets"⟩, [])
    ∧ create_hospital_request ⟨1, "H", "h@x.com", "hh", "active"⟩
        ⟨"staff", none, none, none, none⟩ []
      = (.error internalServerError, []) :=
  ⟨rfl, rfl, rfl, rfl, rfl⟩

/-- C5 counterexample: a token whose role claim is `doctor` resolved
through the patient resolver does not fail - it resolves to the patient
sharing the subject email, because the resolvers never check the role
claim. -/
theorem c5_cross_role_token_resolves :
    get_current_patient ⟨"shared@x.com", "doctor"⟩ [⟨1, "Ann", "shared@x.com", "h1"⟩]
      = .ok ⟨1, "Ann", "shared@x.com", "h1"⟩ := rfl

/-- C5 (amended): the kind-specific resolvers ignore the role claim
entirely and resolve by subject email alone; resolution through the
resolver of kind Y fails (401) exactly when no kind-Y row carries the
token's subject email, and any successful resolution returns a kind-Y
row with that email, whatever role the token was issued for. -/
theorem c5_resolvers_ignore_role (pl : TokenPayload) (pdb : List Patient)
    (ddb : List Doctor) :
    (∀ r, get_current_patient pl pdb = get_current_patient ⟨pl.sub, r⟩ pdb)
    ∧ (∀ r, get_current_doctor pl ddb = get_current_doctor ⟨pl.sub, r⟩ ddb)
    ∧ ((get_current_patient pl pdb).isOk = true ↔ ∃ p ∈ pdb, p.email = pl.sub)
    ∧ (∀ p, get_current_patient pl pdb = .ok p → p ∈ pdb ∧ p.email = pl.sub)
    ∧ ((get_current_doctor pl ddb).isOk = true ↔ ∃ d ∈ ddb, d.email = pl.sub)
    ∧ (∀ d, get_current_doctor pl ddb = .ok d → d ∈ ddb ∧ d.email = pl.sub) := by
  refine ⟨fun _ => rfl, fun _ => rfl, ?_, ?_, ?_, ?_⟩
  · cases h : pdb.find? (fun p => p.email == pl.sub) with
    | none =>
      simp only [get_current_patient, h, Except.isOk]
      constructor
      · intro hfalse; cases hfalse
      · rintro ⟨p, hp, he⟩
        exact absurd (by simpa using he) (by simpa using List.find?_eq_none.mp h p hp)
    | some p =>
      simp only [get_current_patient, h, Except.isOk]
      refine iff_of_true rfl ⟨p, List.mem_of_find?_eq_some h, by
        simpa using List.find?_some h⟩
  · intro p hp
    cases h : pdb.find? (fun p => p.email == pl.sub) with
    | none => simp [get_current_patient, h] at hp
    | some q =>
      simp only [get_current_patient, h, Except.ok.injEq] at hp
      subst hp
      exact ⟨List.mem_of_find?_eq_some h, by simpa using List.find?_some h⟩
  · cases h : ddb.find? (fun d => d.email == pl.sub) with
    | none =>
      simp only [get_current_doctor, h, Except.isOk]
      constructor
      · intro hfalse; cases hfalse
      · rintro ⟨d, hd, he⟩
        exact absurd (by simpa using he) (by simpa using List.find?_eq_none.mp h d hd)
    | some d =>
      simp only [get_current_doctor, h, Except.isOk]
      refine iff_of_true rfl ⟨d, List.mem_of_find?_eq_some h, by
        simpa using List.find?_some h⟩
  · intro d hd
    cases h : ddb.find? (fun d => d.email == pl.sub) with
    | none => simp [get_current_doctor, h] at hd
    | some q =>
      simp only [get_current_doctor, h, Except.ok.injEq] at hd
      subst hd
      exact ⟨List.mem_of_find?_eq_some h, by simpa using List.find?_some h⟩

/-- C5 witness: concrete instance of the amended resolver theorem - a
patient row with a given email makes resolution succeed with that row. -/
theorem c5_resolvers_ignore_role_witness :
    get_current_patient ⟨"p@x.com", "doctor"⟩ [⟨7, "Pia", "p@x.com", "h"⟩]
      = .ok ⟨7, "Pia", "p@x.com", "h"⟩
    ∧ ((⟨7, "Pia", "p@x.com", "h"⟩ : Patient) ∈ [(⟨7, "Pia", "p@x.com", "h"⟩ : Patient)]
        ∧ ("p@x.com" : String) = "p@x.com") := by
  have h := (c5_resolvers_ignore_role ⟨"p@x.com", "doctor"⟩
    [⟨7, "Pia", "p@x.com", "h"⟩] []).2.2.2.1 ⟨7, "Pia", "p@x.com", "h"⟩ rfl
  exact ⟨rfl, h⟩

/-- C6 counterexample: hospital login with a wrong password fails with
HTTP status 400, not the claimed 401. -/
theorem c6_hospital_login_is_400 :
    hospital_login (fun _ _ => false) "h@x.com" "pw"
        [⟨1, "H", "h@x.com", "hash", "pending"⟩]
      = .error ⟨400, "Invalid credentials"⟩
    ∧ (400 : Nat) ≠ 401 := ⟨rfl, by decide⟩

/-- C6 (amended): for every login handler, a wrong password (the external
verifier answering false on the stored hash) never yields a token, and an
unknown email produces the identical failure response, so the response
does not reveal whether the email exists; the failure status is 401 for
patient, doctor and admin logins but 400 for hospital login. -/
theorem c6_login_no_credential_leak (verify : String → String → Bool)
    (email pw : String) (pdb : List Patient) (ddb : List Doctor)
    (hdb : List Hospital) (adb : List AdminUser) :
    (pdb.find? (fun p => p.email == email) = none →
      patient_login verify email pw pdb = .error ⟨401, "Invalid credentials"⟩)
    ∧ (∀ p, pdb.find? (fun p => p.email == email) = some p →
        verify pw p.password_hash = false →
        patient_login verify email pw pdb = .error ⟨401, "Invalid credentials"⟩)
    ∧ (ddb.find? (fun d => d.email == email) = none →
      doctor_login verify email pw ddb = .error ⟨401, "Invalid credentials"⟩)
    ∧ (∀ d, ddb.find? (fun d => d.email == email) = some d →
        verify pw d.password_hash = false →
        doctor_login verify email pw ddb = .error ⟨401, "Invalid credentials"⟩)
    ∧ (adb.find? (fun a => a.email == email) = none →
      admin_login verify email pw adb = .error ⟨401, "Invalid admin credentials"⟩)
    ∧ (∀ a, adb.find? (fun a => a.email == email) = some a →
        verify pw a.password_hash = false →
        admin_login verify email pw adb = .error ⟨401, "Invalid admin credentials"⟩)
    ∧ (hdb.find? (fun h => h.email == email) = none →
      hospital_login verify email pw hdb = .error ⟨400, "Invalid credentials"⟩)
    ∧ (∀ h, hdb.find? (fun h => h.email == email) = some h →
        verify pw h.password_hash = false →
        hospital_login verify email pw hdb = .error ⟨400, "Invalid credentials"⟩) := by
  refine ⟨fun h => by simp [patient_login, h],
          fun p hp hv => by simp [patient_login, hp, hv],
          fun h => by simp [doctor_login, h],
          fun d hd hv => by simp [doctor_login, hd, hv],
          fun h => by simp [admin_login, h],
          fun a ha hv => by simp [admin_login, ha, hv],
          fun h => by simp [hospital_login, h],
          fun h hh hv => by simp [hospital_login, hh, hv]⟩

/-- C6 witness: the unknown-email case and the wrong-password case of the
amended login theorem at concrete inputs. -/
theorem c6_login_no_credential_leak_witness :
    patient_login (fun _ _ => false) "nobody@x.com" "pw"
        [⟨1, "P", "p@x.com", "h"⟩] = .error ⟨401, "Invalid credentials"⟩
    ∧ patient_login (fun _ _ => false) "p@x.com" "pw"
        [⟨1, "P", "p@x.com", "h"⟩] = .error ⟨401, "Invalid credentials"⟩
    ∧ hospital_login (fun _ _ => false) "h@x.com" "pw"
        [⟨1, "H", "h@x.com", "hh", "pending"⟩] = .error ⟨400, "Invalid credentials"⟩ := by
  refine ⟨?_, ?_, ?_⟩
  · exact (c6_login_no_credential_leak (fun _ _ => false) "nobody@x.com" "pw"
      [⟨1, "P", "p@x.com", "h"⟩] [] [] []).1 (by decide)
  · exact (c6_login_no_credential_leak (fun _ _ => false) "p@x.com" "pw"
      [⟨1, "P", "p@x.com", "h"⟩] [] [] []).2.1 ⟨1, "P", "p@x.com", "h"⟩ (by decide) rfl
  · exact (c6_login_no_credential_leak (fun _ _ => false) "h@x.com" "pw"
      [] [] [⟨1, "H", "h@x.com", "hh", "pending"⟩] []).2.2.2.2.2.2.2
      ⟨1, "H", "h@x.com", "hh", "pending"⟩ (by decide) rfl

-- Shared concrete fixtures for witnesses and counterexamples.

/-- A ticket owned by hospital 3, open, with an empty payload. -/
def sampleTicket : Ticket :=
  { id := 1, hospital_id := some 3, type := "get_staff", details := none,
    payload := none, status := "open", assigned_admin := none, created_at := 10,
    closed_at := none, closed_by_admin := none, closed_by_hospital := none,
    last_updated_by_admin := none, last_updated_by_hospital := none }

/-- A second ticket, owned by hospital 4, created later. -/
def sampleTicket2 : Ticket :=
  { sampleTicket with id := 2, hospital_id := some 4, created_at := 20 }

/-- A ticket update supplying no field at all. -/
def emptyUpd : TicketUpdate :=
  { details := none, payload := none, count := none, description := none,
    status := none, assigned_admin := none, note := none }

/-- C2: ticket update returns 404 (leaving the table untouched) when the
ticket id does not exist; a Hospital actor that does not own the ticket
gets 403 with the table untouched; an AdminUser's update always succeeds
on an existing ticket, whoever owns it. -/
theorem c2_update_authorization (actor : Actor) (tid : Nat) (upd : TicketUpdate)
    (now : Nat) (db : List Ticket) :
    (findTicket tid db = none →
      update_ticket actor tid upd now db = (.error ⟨404, "Ticket not found"⟩, db))
    ∧ (∀ t, findTicket tid db = some t → actor.role = .hospital →
        t.hospital_id ≠ some actor.id →
        update_ticket actor tid upd now db
          = (.error ⟨403, "Not authorized to modify this ticket"⟩, db))
    ∧ (∀ t, findTicket tid db = some t → actor.role = .admin →
        ∃ t2, (update_ticket actor tid upd now db).1 = .ok t2) := by
  obtain ⟨r, i⟩ := actor
  refine ⟨fun h => by simp [update_ticket, h], ?_, ?_⟩
  · intro t ht hrole hne
    cases hrole
    simp only [update_ticket, ht]
    rw [if_pos (by simp [hne])]
  · intro t ht hrole
    cases hrole
    simp only [update_ticket, ht]
    rw [if_neg (by simp)]
    exact ⟨_, rfl⟩

/-- C2 witness: the three branches at concrete inputs - unknown id 99,
hospital 9 touching hospital 3's ticket, and an admin update. -/
theorem c2_update_authorization_witness :
    update_ticket ⟨.admin, 2⟩ 99 emptyUpd 5 [sampleTicket]
      = (.error ⟨404, "Ticket not found"⟩, [sampleTicket])
    ∧ update_ticket ⟨.hospital, 9⟩ 1 emptyUpd 5 [sampleTicket]
      = (.error ⟨403, "Not authorized to modify this ticket"⟩, [sampleTicket])
    ∧ ∃ t2, (update_ticket ⟨.admin, 2⟩ 1 emptyUpd 5 [sampleTicket]).1 = .ok t2 := by
  refine ⟨?_, ?_, ?_⟩
  · exact (c2_update_authorization ⟨.admin, 2⟩ 99 emptyUpd 5 [sampleTicket]).1 rfl
  · exact (c2_update_authorization ⟨.hospital, 9⟩ 1 emptyUpd 5 [sampleTicket]).2.1
      sampleTicket rfl rfl (by decide)
  · exact (c2_update_authorization ⟨.admin, 2⟩ 1 emptyUpd 5 [sampleTicket]).2.2
      sampleTicket rfl rfl

/-- C4: listing tickets as a Hospital actor yields exactly (a permutation
of) the tickets owned by that hospital - the `hospital_id` query
parameter is ignored on that branch, and with no status filter the result
is exactly the owned tickets; an AdminUser gets all tickets subject to
the optional status / hospital filters; Doctor and Patient actors get
403; every success is ordered newest-created first, as is the legacy
hospital listing. -/
theorem c4_list_scoping (statusQ : Option String) (hQ hQ' : Option Nat) (i : Nat)
    (db : List Ticket) (hosp : Hospital) :
    (∃ l, get_tickets statusQ hQ ⟨.hospital, i⟩ db = .ok l
      ∧ l.Perm (applyStatusFilter statusQ (db.filter (fun t => t.hospital_id == some i)))
      ∧ List.Sorted createdDesc l)
    ∧ get_tickets statusQ hQ ⟨.hospital, i⟩ db = get_tickets statusQ hQ' ⟨.hospital, i⟩ db
    ∧ (∃ l, get_tickets none hQ ⟨.hospital, i⟩ db = .ok l
      ∧ l.Perm (db.filter (fun t => t.hospital_id == some i)))
    ∧ (∃ l, get_tickets statusQ hQ ⟨.admin, i⟩ db = .ok l
      ∧ l.Perm (applyStatusFilter statusQ (adminHospitalFilter hQ db))
      ∧ List.Sorted createdDesc l)
    ∧ get_tickets statusQ hQ ⟨.doctor, i⟩ db = .error ⟨403, "Not authorized to list tickets"⟩
    ∧ get_tickets statusQ hQ ⟨.patient, i⟩ db = .error ⟨403, "Not authorized to list tickets"⟩
    ∧ (list_hospital_requests hosp db).Perm
        (db.filter (fun t => t.hospital_id == some hosp.id))
    ∧ List.Sorted createdDesc (list_hospital_requests hosp db) := by
  refine ⟨⟨_, rfl, List.perm_insertionSort _ _, List.sorted_insertionSort _ _⟩,
    rfl,
    ⟨_, rfl, List.perm_insertionSort _ _⟩,
    ⟨_, rfl, List.perm_insertionSort _ _, List.sorted_insertionSort _ _⟩,
    rfl, rfl,
    List.perm_insertionSort _ _,
    List.sorted_insertionSort _ _⟩

-- Frame lemmas for the update pipeline steps: which Ticket fields each
-- step leaves untouched, and how the status step stamps closure fields.

theorem stepDetails_frame (upd : TicketUpdate) (p : Ticket × Bool) :
    (stepDetails upd p).1.closed_at = p.1.closed_at
    ∧ (stepDetails upd p).1.closed_by_admin = p.1.closed_by_admin
    ∧ (stepDetails upd p).1.closed_by_hospital = p.1.closed_by_hospital
    ∧ (stepDetails upd p).1.payload = p.1.payload := by
  cases h : upd.details <;> simp [stepDetails, h]

theorem stepPayload_frame (upd : TicketUpdate) (p : Ticket × Bool) :
    (stepPayload upd p).1.closed_at = p.1.closed_at
    ∧ (stepPayload upd p).1.closed_by_admin = p.1.closed_by_admin
    ∧ (stepPayload upd p).1.closed_by_hospital = p.1.closed_by_hospital := by
  cases h : upd.payload <;> simp [stepPayload, h]

theorem stepAssigned_frame (upd : TicketUpdate) (p : Ticket × Bool) :
    (stepAssigned upd p).1.closed_at = p.1.closed_at
    ∧ (stepAssigned upd p).1.closed_by_admin = p.1.closed_by_admin
    ∧ (stepAssigned upd p).1.closed_by_hospital = p.1.closed_by_hospital
    ∧ (stepAssigned upd p).1.payload = p.1.payload := by
  cases h : upd.assigned_admin <;> simp [stepAssigned, h]

theorem stepStatus_payload (actor : Actor) (now : Nat) (upd : TicketUpdate)
    (p : Ticket × Bool) : (stepStatus actor now upd p).1.payload = p.1.payload := by
  cases h : upd.status with
  | none => simp [stepStatus, h]
  | some s =>
    simp only [stepStatus, h]
    split
    · cases hr : actor.role <;> simp
    · simp

theorem stepLastUpdated_frame (actor : Actor) (p : Ticket × Bool) :
    (stepLastUpdated actor p).1.closed_at = p.1.closed_at
    ∧ (stepLastUpdated actor p).1.closed_by_admin = p.1.closed_by_admin
    ∧ (stepLastUpdated actor p).1.closed_by_hospital = p.1.closed_by_hospital
    ∧ (stepLastUpdated actor p).1.payload = p.1.payload := by
  cases h : actor.role <;> simp [stepLastUpdated, h]

theorem stepNote_closure_frame (actor : Actor) (now : Nat) (upd : TicketUpdate)
    (p : Ticket × Bool) :
    (stepNote actor now upd p).1.closed_at = p.1.closed_at
    ∧ (stepNote actor now upd p).1.closed_by_admin = p.1.closed_by_admin
    ∧ (stepNote actor now upd p).1.closed_by_hospital = p.1.closed_by_hospital := by
  cases h : upd.note with
  | none => simp [stepNote, h]
  | some s =>
    simp only [stepNote, h]
    split <;> simp

/-- The status step on a transition into `resolved` or `closed`: the
closure timestamp is stamped, and the closed-by column matching the actor
role is set while the other is preserved (neither for doctor/patient). -/
theorem stepStatus_closes (actor : Actor) (now : Nat) (upd : TicketUpdate)
    (p : Ticket × Bool) (s : String) (hs : upd.status = some s)
    (hres : s = "resolved" ∨ s = "closed") :
    (stepStatus actor now upd p).1.closed_at = some now
    ∧ (stepStatus actor now upd p).1.closed_by_admin
        = (if actor.role = .admin then some actor.id else p.1.closed_by_admin)
    ∧ (stepStatus actor now upd p).1.closed_by_hospital
        = (if actor.role = .hospital then some actor.id else p.1.closed_by_hospital) := by
  have hcond : (s == "closed" || s == "resolved") = true := by
    rcases hres with rfl | rfl <;> decide
  simp only [stepStatus, hs, hcond, if_true]
  cases hr : actor.role <;> simp [hr]

/-- The whole update pipeline on a transition into `resolved`/`closed`:
closure stamped as in `stepStatus_closes`, with the untouched closed-by
column surviving from the original ticket. -/
theorem updatePipeline_closes (actor : Actor) (now : Nat) (upd : TicketUpdate)
    (t0 : Ticket) (s : String) (hs : upd.status = some s)
    (hres : s = "resolved" ∨ s = "closed") :
    (updatePipeline actor now upd t0).1.closed_at = some now
    ∧ (updatePipeline actor now upd t0).1.closed_by_admin
        = (if actor.role = .admin then some actor.id else t0.closed_by_admin)
    ∧ (updatePipeline actor now upd t0).1.closed_by_hospital
        = (if actor.role = .hospital then some actor.id else t0.closed_by_hospital) := by
  unfold updatePipeline
  obtain ⟨n1, n2, n3⟩ := stepNote_closure_frame actor now upd
    (stepLastUpdated actor (stepStatus actor now upd
      (stepAssigned upd (stepPayload upd (stepDetails upd (t0, false))))))
  obtain ⟨l1, l2, l3, _⟩ := stepLastUpdated_frame actor
    (stepStatus actor now upd (stepAssigned upd (stepPayload upd (stepDetails upd (t0, false)))))
  obtain ⟨s1, s2, s3⟩ := stepStatus_closes actor now upd
    (stepAssigned upd (stepPayload upd (stepDetails upd (t0, false)))) s hs hres
  obtain ⟨a1, a2, a3, _⟩ := stepAssigned_frame upd (stepPayload upd (stepDetails upd (t0, false)))
  obtain ⟨p1, p2, p3⟩ := stepPayload_frame upd (stepDetails upd (t0, false))
  obtain ⟨d1, d2, d3, _⟩ := stepDetails_frame upd (t0, false)
  refine ⟨?_, ?_, ?_⟩
  · rw [n1, l1, s1]
  · rw [n2, l2, s2, a2, p2, d2]
  · rw [n3, l3, s3, a3, p3, d3]

/-- The `resolve` branch of the admin action dispatch. -/
theorem actionDispatch_resolve (admin_id now : Nat) (act : ActionReq) (r : Ticket)
    (hdb : List Hospital) (ha : act.action = some "resolve") :
    actionDispatch admin_id act now r hdb
      = .ok ({ r with
                status := "resolved", closed_at := some now,
                closed_by_admin := some admin_id }, hdb) := by
  simp [actionDispatch, ha]

/-- The `approve_signup` branch never touches the closure fields. -/
theorem actionDispatch_approve_no_closure (admin_id now : Nat) (act : ActionReq)
    (r : Ticket) (hdb : List Hospital) (ha : act.action = some "approve_signup") :
    ∀ r1 hdb1, actionDispatch admin_id act now r hdb = .ok (r1, hdb1) →
      r1.closed_at = r.closed_at ∧ r1.closed_by_admin = r.closed_by_admin
      ∧ r1.closed_by_hospital = r.closed_by_hospital := by
  intro r1 hdb1 h
  simp only [actionDispatch, ha, show ((some "approve_signup" == some "assign") = false)
      from by decide,
    show ((some "approve_signup" == some "start") = false) from by decide,
    show ((some "approve_signup" == some "resolve") = false) from by decide,
    show ((some "approve_signup" == some "reject") = false) from by decide,
    show ((some "approve_signup" == some "approve_signup") = true) from by decide,
    Bool.false_and, Bool.false_eq_true, if_false, if_true] at h
  split at h
  · split at h
    · split at h
      · simp only [Except.ok.injEq, Prod.mk.injEq] at h
        rw [← h.1]
        exact ⟨rfl, rfl, rfl⟩
      · simp only [Except.ok.injEq, Prod.mk.injEq] at h
        rw [← h.1]
        exact ⟨rfl, rfl, rfl⟩
    · simp only [Except.ok.injEq, Prod.mk.injEq] at h
      rw [← h.1]
      exact ⟨rfl, rfl, rfl⟩
  · simp only [Except.ok.injEq, Prod.mk.injEq] at h
    rw [← h.1]
    exact ⟨rfl, rfl, rfl⟩

/-- Evaluation of `update_ticket` on the authorized path: when the ticket
is found and the hospital-ownership guard does not fire, the response is
the pipeline output and the table is rewritten when the changed flag is
set. -/
theorem update_ticket_ok (actor : Actor) (tid now : Nat) (upd : TicketUpdate)
    (db : List Ticket) (t : Ticket) (hfind : findTicket tid db = some t)
    (hcond : (actor.role == Role.hospital && t.hospital_id != some actor.id) = false) :
    update_ticket actor tid upd now db
      = (.ok (updatePipeline actor now upd t).1,
         if (updatePipeline actor now upd t).2 then
           db.map (fun u => if u.id == t.id then (updatePipeline actor now upd t).1 else u)
         else db) := by
  simp only [update_ticket, hfind, hcond, Bool.false_eq_true, if_false]

/-- C3 counterexample: an admin `approve_signup` action on an open ticket
of an existing pending hospital succeeds and sets the ticket status to
`resolved`, yet leaves the closure timestamp and both closed-by columns
empty - contradicting the claim that every operation setting the status
to resolved stamps a closure timestamp and a closed-by field. -/
theorem c3_approve_signup_resolves_without_closure :
    admin_take_action 5 1 ⟨some "approve_signup", none⟩ 7 [sampleTicket]
        [⟨3, "H3", "h3@x.com", "hh", "pending"⟩]
      = (.ok { sampleTicket with
                status := "resolved", last_updated_by_admin := some 5 },
         [{ sampleTicket with
             status := "resolved", last_updated_by_admin := some 5 }],
         [⟨3, "H3", "h3@x.com", "hh", "active"⟩])
    ∧ ({ sampleTicket with
          status := "resolved", last_updated_by_admin := some 5 } : Ticket).status
        = "resolved"
    ∧ ({ sampleTicket with
          status := "resolved", last_updated_by_admin := some 5 } : Ticket).closed_at
        = none
    ∧ ({ sampleTicket with
          status := "resolved", last_updated_by_admin := some 5 } : Ticket).closed_by_admin
        = none
    ∧ ({ sampleTicket with
          status := "resolved", last_updated_by_admin := some 5 } : Ticket).closed_by_hospital
        = none :=
  ⟨rfl, rfl, rfl, rfl, rfl⟩

/-- C3 (amended): a successful generic update that sets the status to
`resolved` or `closed` stamps `closed_at := now` and sets the closed-by
column matching the caller when the caller is an AdminUser or an owning
Hospital (leaving the other column untouched); a Doctor or Patient actor
performing the same update stamps `closed_at` but neither closed-by
column; the admin `resolve` action stamps `closed_at` and
`closed_by_admin`; the admin `approve_signup` action leaves `closed_at`
and both closed-by columns untouched. -/
theorem c3_closure_stamping (i tid now : Nat) (upd : TicketUpdate) (db : List Ticket)
    (t : Ticket) (s : String) (act : ActionReq) (hdb : List Hospital)
    (hfind : findTicket tid db = some t)
    (hs : upd.status = some s) (hres : s = "resolved" ∨ s = "closed") :
    (∀ t2, (update_ticket ⟨.admin, i⟩ tid upd now db).1 = .ok t2 →
      t2.closed_at = some now ∧ t2.closed_by_admin = some i
      ∧ t2.closed_by_hospital = t.closed_by_hospital)
    ∧ (t.hospital_id = some i →
      ∀ t2, (update_ticket ⟨.hospital, i⟩ tid upd now db).1 = .ok t2 →
      t2.closed_at = some now ∧ t2.closed_by_hospital = some i
      ∧ t2.closed_by_admin = t.closed_by_admin)
    ∧ (∀ r, r = Role.doctor ∨ r = Role.patient →
      ∀ t2, (update_ticket ⟨r, i⟩ tid upd now db).1 = .ok t2 →
      t2.closed_at = some now ∧ t2.closed_by_admin = t.closed_by_admin
      ∧ t2.closed_by_hospital = t.closed_by_hospital)
    ∧ (act.action = some "resolve" →
      ∀ t2 rest, admin_take_action i tid act now db hdb = (.ok t2, rest) →
      t2.closed_at = some now ∧ t2.closed_by_admin = some i)
    ∧ (act.action = some "approve_signup" →
      ∀ t2 rest, admin_take_action i tid act now db hdb = (.ok t2, rest) →
      t2.closed_at = t.closed_at ∧ t2.closed_by_admin = t.closed_by_admin
      ∧ t2.closed_by_hospital = t.closed_by_hospital) := by
  refine ⟨?_, ?_, ?_, ?_, ?_⟩
  · intro t2 heq
    rw [update_ticket_ok ⟨.admin, i⟩ tid now upd db t hfind
      (by simp [show (Role.admin == Role.hospital) = false from by decide])] at heq
    simp only [Except.ok.injEq] at heq
    subst heq
    obtain ⟨h1, h2, h3⟩ := updatePipeline_closes ⟨Role.admin, i⟩ now upd t s hs hres
    exact ⟨h1, by simpa using h2, by simpa using h3⟩
  · intro howner t2 heq
    rw [update_ticket_ok ⟨.hospital, i⟩ tid now upd db t hfind (by simp [howner])] at heq
    simp only [Except.ok.injEq] at heq
    subst heq
    obtain ⟨h1, h2, h3⟩ := updatePipeline_closes ⟨Role.hospital, i⟩ now upd t s hs hres
    exact ⟨h1, by simpa using h3, by simpa using h2⟩
  · intro r hr t2 heq
    have hcond : ((⟨r, i⟩ : Actor).role == Role.hospital
        && t.hospital_id != some (⟨r, i⟩ : Actor).id) = false := by
      rcases hr with rfl | rfl <;>
        simp [show (Role.doctor == Role.hospital) = false from by decide,
          show (Role.patient == Role.hospital) = false from by decide]
    rw [update_ticket_ok ⟨r, i⟩ tid now upd db t hfind hcond] at heq
    simp only [Except.ok.injEq] at heq
    subst heq
    obtain ⟨h1, h2, h3⟩ := updatePipeline_closes ⟨r, i⟩ now upd t s hs hres
    have hradm : (⟨r, i⟩ : Actor).role ≠ Role.admin := by
      rcases hr with rfl | rfl <;> simp
    have hrhosp : (⟨r, i⟩ : Actor).role ≠ Role.hospital := by
      rcases hr with rfl | rfl <;> simp
    rw [if_neg hradm] at h2
    rw [if_neg hrhosp] at h3
    exact ⟨h1, h2, h3⟩
  · intro ha t2 rest heq
    simp only [admin_take_action, hfind] at heq
    rw [actionDispatch_resolve i now act t hdb ha] at heq
    simp only [Prod.mk.injEq, Except.ok.injEq] at heq
    obtain ⟨h1, -⟩ := heq
    subst h1
    exact ⟨rfl, rfl⟩
  · intro ha t2 rest heq
    simp only [admin_take_action, hfind] at heq
    cases hdisp : actionDispatch i act now t hdb with
    | error e =>
      rw [hdisp] at heq
      simp at heq
    | ok pr =>
      obtain ⟨r1, hdb1⟩ := pr
      rw [hdisp] at heq
      simp only [Prod.mk.injEq, Except.ok.injEq] at heq
      obtain ⟨h1, -⟩ := heq
      subst h1
      have hfr := actionDispatch_approve_no_closure i now act t hdb ha r1 hdb1 hdisp
      exact ⟨hfr.1, hfr.2.1, hfr.2.2⟩

/-- C3 witness: concrete instances of the amended closure theorem - an
admin resolving via the generic update, and via the resolve action. -/
theorem c3_closure_stamping_witness :
    ((updatePipeline ⟨Role.admin, 5⟩ 7 { emptyUpd with status := some "resolved" }
        sampleTicket).1.closed_at = some 7
      ∧ (updatePipeline ⟨Role.admin, 5⟩ 7 { emptyUpd with status := some "resolved" }
        sampleTicket).1.closed_by_admin = some 5
      ∧ (updatePipeline ⟨Role.admin, 5⟩ 7 { emptyUpd with status := some "resolved" }
        sampleTicket).1.closed_by_hospital = none)
    ∧ ({ sampleTicket with
          status := "resolved", closed_at := some 7, closed_by_admin := some 5,
          last_updated_by_admin := some 5 } : Ticket).closed_at = some 7 := by
  constructor
  · exact (c3_closure_stamping 5 1 7 { emptyUpd with status := some "resolved" }
      [sampleTicket] sampleTicket "resolved" ⟨some "resolve", none⟩ [] rfl rfl
      (Or.inl rfl)).1
      (updatePipeline ⟨Role.admin, 5⟩ 7 { emptyUpd with status := some "resolved" }
        sampleTicket).1 rfl
  · exact ((c3_closure_stamping 5 1 7 { emptyUpd with status := some "resolved" }
      [sampleTicket] sampleTicket "resolved" ⟨some "resolve", none⟩ [] rfl rfl
      (Or.inl rfl)).2.2.2.1 rfl
      { sampleTicket with
         status := "resolved", closed_at := some 7, closed_by_admin := some 5,
         last_updated_by_admin := some 5 }
      ([{ sampleTicket with
           status := "resolved", closed_at := some 7, closed_by_admin := some 5,
           last_updated_by_admin := some 5 }], []) rfl).1

-- Note handling: the notes list stored in a (possibly absent) payload.

/-- The notes list an update would read out of a stored payload value:
the `notes` key of the dict obtained after the `or {}` coercion, coerced
to `[]` when missing or not a list. -/
def notesOfOpt (op : Option Json) : List Json := notesOf (effBase op)

theorem setKey_isEmpty (k : String) (v : Json) (kvs : List (String × Json)) :
    (setKey k v kvs).isEmpty = false := by
  cases kvs with
  | nil => rfl
  | cons h rest =>
    simp only [setKey]
    split <;> simp

theorem lookupKey_setKey (k : String) (v : Json) (kvs : List (String × Json)) :
    lookupKey k (setKey k v kvs) = some v := by
  induction kvs with
  | nil => simp [setKey, lookupKey]
  | cons h rest ih =>
    obtain ⟨k2, v2⟩ := h
    simp only [setKey]
    by_cases hk : (k2 == k) = true
    · rw [if_pos hk]
      simp [lookupKey, hk]
    · rw [if_neg hk]
      simp only [lookupKey, hk, Bool.false_eq_true, if_false]
      exact ih

theorem notesOf_writeNotes (base : Json) (l : List Json) :
    notesOf (writeNotes base l) = l := by
  cases base <;> simp [writeNotes, notesOf, lookupKey, lookupKey_setKey]

theorem jsonTruthy_writeNotes (base : Json) (l : List Json) :
    jsonTruthy (writeNotes base l) = true := by
  cases base <;> simp [writeNotes, jsonTruthy, setKey_isEmpty]

theorem notesOfOpt_writeNotes (base : Json) (l : List Json) :
    notesOfOpt (some (writeNotes base l)) = l := by
  show notesOf (if jsonTruthy (writeNotes base l) = true
    then writeNotes base l else Json.obj []) = l
  rw [jsonTruthy_writeNotes]
  simp only [if_true]
  exact notesOf_writeNotes base l

/-- The note step on a truthy note: the resulting payload's notes list is
the notes list of the incoming payload with exactly the one new entry
appended at the end. -/
theorem stepNote_appends (actor : Actor) (now : Nat) (upd : TicketUpdate)
    (p : Ticket × Bool) (s : String) (hn : upd.note = some s) (hs : s ≠ "") :
    notesOfOpt (stepNote actor now upd p).1.payload
      = notesOfOpt p.1.payload ++ [mkNoteEntry actor.role actor.id s now] := by
  have hb : (s != "") = true := by simpa using hs
  simp only [stepNote, hn, hb, if_true]
  rw [notesOfOpt_writeNotes]
  rfl

/-- The payload visible to the note step: the caller-supplied replacement
if one was sent, otherwise the stored payload. -/
theorem pipelinePrefix_payload (actor : Actor) (now : Nat) (upd : TicketUpdate)
    (t0 : Ticket) :
    (stepLastUpdated actor (stepStatus actor now upd
        (stepAssigned upd (stepPayload upd (stepDetails upd (t0, false)))))).1.payload
      = (match upd.payload with
          | some kvs => some (Json.obj kvs)
          | none => t0.payload) := by
  rw [(stepLastUpdated_frame actor _).2.2.2, stepStatus_payload,
    (stepAssigned_frame upd _).2.2.2]
  cases hp : upd.payload with
  | some kvs => simp [stepPayload, hp]
  | none =>
    simp only [stepPayload, hp]
    rw [(stepDetails_frame upd _).2.2.2]

/-- C7 counterexample: a single update supplying both a payload
replacement (without a notes list) and a note - the stored notes list
does not grow by one entry preserving the prior entries: the prior entry
is lost and the resulting list holds only the new note. -/
theorem c7_payload_replacement_drops_notes :
    (update_ticket ⟨.admin, 5⟩ 1
        { emptyUpd with payload := some [], note := some "x" } 7
        [{ sampleTicket with
            payload := some (Json.obj [("notes", Json.arr [Json.str "first"])]) }]).1
      = .ok { sampleTicket with
               payload := some (Json.obj [("notes",
                 Json.arr [mkNoteEntry .admin 5 "x" 7])]),
               last_updated_by_admin := some 5 }
    ∧ notesOfOpt (some (Json.obj [("notes", Json.arr [Json.str "first"])]))
        = [Json.str "first"]
    ∧ notesOfOpt (some (Json.obj [("notes", Json.arr [mkNoteEntry .admin 5 "x" 7])]))
        = [mkNoteEntry .admin 5 "x" 7]
    ∧ Json.str "first" ≠ mkNoteEntry .admin 5 "x" 7 := by
  refine ⟨rfl, rfl, rfl, ?_⟩
  intro h
  simp [mkNoteEntry] at h

/-- C7 (amended): a successful update carrying a truthy note always
appends exactly one entry - recording the acting role, actor id, note
text and timestamp - to the notes list of the payload in effect after any
payload replacement from the same call: the supplied payload if one was
sent, the stored payload otherwise.  Prior entries of that effective
payload are preserved in order; prior entries of a payload that the same
call replaced are not. -/
theorem c7_note_append (actor : Actor) (tid now : Nat) (upd : TicketUpdate)
    (db : List Ticket) (t : Ticket) (s : String)
    (hfind : findTicket tid db = some t) (hn : upd.note = some s) (hs : s ≠ "") :
    ∀ t2, (update_ticket actor tid upd now db).1 = .ok t2 →
      notesOfOpt t2.payload
        = notesOfOpt (match upd.payload with
            | some kvs => some (Json.obj kvs)
            | none => t.payload)
          ++ [mkNoteEntry actor.role actor.id s now] := by
  intro t2 heq
  by_cases hcond : (actor.role == Role.hospital && t.hospital_id != some actor.id) = true
  · simp only [update_ticket, hfind, hcond, if_true] at heq
    exact Except.noConfusion heq
  · rw [update_ticket_ok actor tid now upd db t hfind
      (Bool.not_eq_true _ ▸ hcond)] at heq
    simp only [Except.ok.injEq] at heq
    subst heq
    rw [show updatePipeline actor now upd t
        = stepNote actor now upd (stepLastUpdated actor (stepStatus actor now upd
            (stepAssigned upd (stepPayload upd (stepDetails upd (t, false))))))
      from rfl]
    rw [stepNote_appends actor now upd _ s hn hs, pipelinePrefix_payload]

/-- C7 witness: a hospital owner appending a note with no payload
replacement - the stored entry is preserved and the new entry appended. -/
theorem c7_note_append_witness :
    notesOfOpt ((updatePipeline ⟨Role.hospital, 3⟩ 7
        { emptyUpd with note := some "hi" }
        { sampleTicket with
           payload := some (Json.obj [("notes", Json.arr [Json.str "first"])]) }).1.payload)
      = [Json.str "first", mkNoteEntry Role.hospital 3 "hi" 7] := by
  have h := c7_note_append ⟨Role.hospital, 3⟩ 1 7
    { emptyUpd with note := some "hi" }
    [{ sampleTicket with
        payload := some (Json.obj [("notes", Json.arr [Json.str "first"])]) }]
    { sampleTicket with
       payload := some (Json.obj [("notes", Json.arr [Json.str "first"])]) }
    "hi" rfl rfl (by decide) _ rfl
  exact h.trans rfl

-- ---------------------------------------------------------------------
-- Admin action verb recognition (C9) and the approve_signup frame (C10)
-- ---------------------------------------------------------------------

/-- When the verb dispatch of `admin_take_action` falls through to the
400 `Unknown action` branch: the verb is not one of the five recognized
ones, or it is `assign` without a truthy `assign_to`. -/
def actionUnknown (a : ActionReq) : Bool :=
  if a.action == some "assign" then !(optNatTruthy a.assign_to)
  else if a.action == some "start" then false
  else if a.action == some "resolve" then false
  else if a.action == some "reject" then false
  else if a.action == some "approve_signup" then false
  else true

/-- The dispatch either rejects with exactly the 400 `Unknown action`
error (when `actionUnknown`) or succeeds. -/
theorem actionDispatch_cases (admin_id now : Nat) (act : ActionReq) (r : Ticket)
    (hdb : List Hospital) :
    (actionUnknown act = true
      ∧ actionDispatch admin_id act now r hdb = .error ⟨400, "Unknown action"⟩)
    ∨ (actionUnknown act = false
      ∧ (actionDispatch admin_id act now r hdb).isOk = true) := by
  cases ha : act.action with
  | none =>
    exact Or.inl ⟨by simp [actionUnknown, ha], by simp [actionDispatch, ha]⟩
  | some s =>
    by_cases h1 : s = "assign"
    · subst h1
      cases htr : optNatTruthy act.assign_to
      · exact Or.inl ⟨by simp [actionUnknown, ha, htr],
          by simp [actionDispatch, ha, htr]⟩
      · exact Or.inr ⟨by simp [actionUnknown, ha, htr],
          by simp [actionDispatch, ha, htr, Except.isOk, Except.toBool]⟩
    · by_cases h2 : s = "start"
      · subst h2
        exact Or.inr ⟨by simp [actionUnknown, ha],
          by simp [actionDispatch, ha, Except.isOk, Except.toBool]⟩
      · by_cases h3 : s = "resolve"
        · subst h3
          exact Or.inr ⟨by simp [actionUnknown, ha],
            by simp [actionDispatch, ha, Except.isOk, Except.toBool]⟩
        · by_cases h4 : s = "reject"
          · subst h4
            exact Or.inr ⟨by simp [actionUnknown, ha],
              by simp [actionDispatch, ha, Except.isOk, Except.toBool]⟩
          · by_cases h5 : s = "approve_signup"
            · subst h5
              refine Or.inr ⟨by simp [actionUnknown, ha], ?_⟩
              simp only [actionDispatch, ha,
                show ((some "approve_signup" == some "assign") = false) from by decide,
                show ((some "approve_signup" == some "start") = false) from by decide,
                show ((some "approve_signup" == some "resolve") = false) from by decide,
                show ((some "approve_signup" == some "reject") = false) from by decide,
                show ((some "approve_signup" == some "approve_signup") = true) from by decide,
                Bool.false_and, Bool.false_eq_true, if_false, if_true]
              split
              · split
                · split <;> rfl
                · rfl
              · rfl
            · exact Or.inl ⟨by simp [actionUnknown, ha, h1, h2, h3, h4, h5],
                by simp [actionDispatch, ha, h1, h2, h3, h4, h5]⟩

/-- C9 counterexample: the recognized verb `assign`, sent without an
`assign_to` value, fails with the 400 `Unknown action` error - so a
recognized verb can fail with UnknownAction. -/
theorem c9_assign_without_target_is_unknown :
    admin_take_action 5 1 ⟨some "assign", none⟩ 7 [sampleTicket] []
      = (.error ⟨400, "Unknown action"⟩, [sampleTicket], []) := rfl

/-- C9 (amended): an admin action on an existing ticket fails with the
400 `Unknown action` error exactly when the request is `actionUnknown`:
its verb is outside the five recognized ones, or it is `assign` without a
truthy `assign_to`; requests with any other recognized verb, and `assign`
with a truthy target, never produce that error. -/
theorem c9_unknown_action_iff (admin_id tid now : Nat) (act : ActionReq)
    (tdb : List Ticket) (hdb : List Hospital) (t : Ticket)
    (hfind : findTicket tid tdb = some t) :
    (admin_take_action admin_id tid act now tdb hdb).1
        = .error ⟨400, "Unknown action"⟩
      ↔ actionUnknown act = true := by
  simp only [admin_take_action, hfind]
  rcases actionDispatch_cases admin_id now act t hdb with ⟨hu, he⟩ | ⟨hu, hok⟩
  · rw [he]
    simp [hu]
  · cases hd : actionDispatch admin_id act now t hdb with
    | error e =>
      rw [hd] at hok
      simp [Except.isOk, Except.toBool] at hok
    | ok pr =>
      obtain ⟨r1, hdb1⟩ := pr
      simp [hu]

/-- C9 witness: an unrecognized verb at a concrete existing ticket is
rejected with 400 Unknown action. -/
theorem c9_unknown_action_iff_witness :
    (admin_take_action 5 1 ⟨some "frobnicate", none⟩ 7 [sampleTicket] []).1
      = .error ⟨400, "Unknown action"⟩ := by
  exact (c9_unknown_action_iff 5 1 7 ⟨some "frobnicate", none⟩ [sampleTicket] []
    sampleTicket rfl).mpr rfl

/-- The `approve_signup` dispatch is a no-op (success with nothing
changed) when the ticket references no existing hospital row. -/
theorem actionDispatch_approve_miss (admin_id now : Nat) (act : ActionReq)
    (t : Ticket) (hdb : List Hospital) (ha : act.action = some "approve_signup")
    (hmiss : ∀ h, t.hospital_id = some h → hdb.find? (fun x => x.id == h) = none) :
    actionDispatch admin_id act now t hdb = .ok (t, hdb) := by
  simp only [actionDispatch, ha,
    show ((some "approve_signup" == some "assign") = false) from by decide,
    show ((some "approve_signup" == some "start") = false) from by decide,
    show ((some "approve_signup" == some "resolve") = false) from by decide,
    show ((some "approve_signup" == some "reject") = false) from by decide,
    show ((some "approve_signup" == some "approve_signup") = true) from by decide,
    Bool.false_and, Bool.false_eq_true, if_false, if_true]
  cases hh : t.hospital_id with
  | none => simp
  | some hid =>
    cases h0 : (hid != 0) with
    | false => simp [h0]
    | true => simp [h0, hmiss hid hh]

/-- C10: an admin `approve_signup` action on an existing ticket whose
`hospital_id` is null, or whose referenced hospital row does not exist,
still succeeds, and its only effect is stamping
`last_updated_by_admin := caller`: the ticket keeps its status (it is not
resolved) and the hospitals table is returned unchanged (nothing is
activated). -/
theorem c10_approve_signup_frame_effect (admin_id tid now : Nat) (act : ActionReq)
    (tdb : List Ticket) (hdb : List Hospital) (t : Ticket)
    (hfind : findTicket tid tdb = some t)
    (ha : act.action = some "approve_signup")
    (hmiss : ∀ h, t.hospital_id = some h → hdb.find? (fun x => x.id == h) = none) :
    admin_take_action admin_id tid act now tdb hdb
      = (.ok { t with last_updated_by_admin := some admin_id },
         tdb.map (fun u => if u.id == t.id
           then { t with last_updated_by_admin := some admin_id } else u),
         hdb) := by
  simp only [admin_take_action, hfind,
    actionDispatch_approve_miss admin_id now act t hdb ha hmiss]

/-- C10 witness: approving the signup ticket of hospital 3 while the
hospitals table holds no such row - success, status still `open`, only
the last-updated stamp written. -/
theorem c10_approve_signup_frame_effect_witness :
    admin_take_action 5 1 ⟨some "approve_signup", none⟩ 7 [sampleTicket] []
      = (.ok { sampleTicket with last_updated_by_admin := some 5 },
         [{ sampleTicket with last_updated_by_admin := some 5 }],
         []) := by
  have h := c10_approve_signup_frame_effect 5 1 7 ⟨some "approve_signup", none⟩
    [sampleTicket] [] sampleTicket rfl rfl (fun _ _ => rfl)
  exact h.trans rfl

-- ---------------------------------------------------------------------
-- Prescription durability (C8)
-- ---------------------------------------------------------------------

/-- C8: prescription creation by a doctor always appends exactly one row
carrying the submitted medicines, diagnosis and notes - also when the
enrichment collaborator raises - and never returns a failure; after the
call `llm_status` is `done` exactly when the collaborator succeeded (its
payload and version tag stored in `llm_output` / `llm_version`), and on a
collaborator exception the status is `error` with the error payload
stored, the row still present. -/
theorem c8_prescription_durable (agent : AgentFn) (pres_in : PrescriptionCreate)
    (doctor_id now newId : Nat) (patients : List Patient) (db : List Prescription) :
    ∃ p, create_prescription agent pres_in doctor_id now newId patients db
        = (p, db ++ [p])
      ∧ p.id = newId
      ∧ p.patient_id = pres_in.patient_id
      ∧ p.doctor_id = doctor_id
      ∧ p.raw_medicines = pres_in.raw_medicines.map Medicine.toJson
      ∧ p.diagnosis = pres_in.diagnosis
      ∧ p.notes = pres_in.notes
      ∧ (p.llm_status = "done"
          ↔ (agent (patientNameFor patients pres_in.patient_id) pres_in.patient_id
              (pres_in.diagnosis.getD "")
              (pres_in.raw_medicines.map Medicine.toJson)).isOk = true)
      ∧ (∀ r, agent (patientNameFor patients pres_in.patient_id) pres_in.patient_id
              (pres_in.diagnosis.getD "")
              (pres_in.raw_medicines.map Medicine.toJson) = .ok r →
          p.llm_output = some r ∧ p.llm_version = some (metaModelOf r))
      ∧ (∀ e, agent (patientNameFor patients pres_in.patient_id) pres_in.patient_id
              (pres_in.diagnosis.getD "")
              (pres_in.raw_medicines.map Medicine.toJson) = .error e →
          p.llm_status = "error" ∧ p.llm_output = some (llmErrorPayload e)
          ∧ p.llm_version = none) := by
  cases hag : agent (patientNameFor patients pres_in.patient_id) pres_in.patient_id
      (pres_in.diagnosis.getD "") (pres_in.raw_medicines.map Medicine.toJson) with
  | ok r =>
    refine ⟨{ id := newId, patient_id := pres_in.patient_id, doctor_id := doctor_id,
              raw_medicines := pres_in.raw_medicines.map Medicine.toJson,
              diagnosis := pres_in.diagnosis, notes := pres_in.notes,
              llm_output := some r, llm_version := some (metaModelOf r),
              llm_status := "done", created_at := now },
      ?_, rfl, rfl, rfl, rfl, rfl, rfl, ?_, ?_, ?_⟩
    · simp [create_prescription, hag]
    · simp [hag, Except.isOk, Except.toBool]
    · intro r2 hr2
      simp only [Except.ok.injEq] at hr2
      subst hr2
      exact ⟨rfl, rfl⟩
    · intro e he
      exact Except.noConfusion he
  | error e =>
    refine ⟨{ id := newId, patient_id := pres_in.patient_id, doctor_id := doctor_id,
              raw_medicines := pres_in.raw_medicines.map Medicine.toJson,
              diagnosis := pres_in.diagnosis, notes := pres_in.notes,
              llm_output := some (llmErrorPayload e), llm_version := none,
              llm_status := "error", created_at := now },
      ?_, rfl, rfl, rfl, rfl, rfl, rfl, ?_, ?_, ?_⟩
    · simp [create_prescription, hag]
    · simp [hag, Except.isOk, Except.toBool]
    · intro r2 hr2
      exact Except.noConfusion hr2
    · intro e2 he2
      simp only [Except.error.injEq] at he2
      subst he2
      exact ⟨rfl, rfl, rfl⟩

/-- An always-raising enrichment collaborator, for exercising the failure
path of prescription creation. -/
def agentFail : AgentFn := fun _ _ _ _ => .error "boom"

/-- C8 witness: with an always-raising collaborator and a concrete
request, the row is still appended and carries `llm_status = "error"`. -/
theorem c8_prescription_durable_witness :
    ∃ p, create_prescription agentFail ⟨4, some "flu", none, [⟨"med", none, none, none⟩]⟩
        2 5 9 [] [] = (p, [p])
      ∧ p.llm_status = "error" := by
  obtain ⟨p, heq, -, -, -, -, -, -, -, -, herr⟩ :=
    c8_prescription_durable agentFail ⟨4, some "flu", none, [⟨"med", none, none, none⟩]⟩
      2 5 9 [] []
  exact ⟨p, heq, (herr "boom" rfl).1⟩

end Raksha360
